import Mathlib

/-!
Verification development for the blackjack turn controller of `bjwithsurrender`
(`blackjack/controllers/game_controller.py`).

The controller source is embedded shallowly below.  Money is modelled with `ℚ`
(the source uses Python numbers with exact fractions such as `wager / 2` and
`wager * 3 / 2`); statuses, outcomes and actions are the literal strings the
source uses.  Rendering, the activity log and screen handling are presentation
only (the render hook "may be a no-op" per the interface contract) and are not
modelled; everything that reads or writes game state is.

The model classes (`blackjack/models/card.py`, `blackjack/models/hand.py`,
the gambler/dealer accounts and `blackjack/exc.py`) are not part of the source
tree available here; each of their operations is modelled from the spec and is
marked `Modelled from the spec:` in its doc comment.  Input prompts
(`get_card_input`, `get_total_input`, the dealer-total prompt) re-prompt until
a valid value arrives; the model reads successive values from an input stream
and bounds the retry loops with fuel, answering `OUT_OF_FUEL` when the
source's unbounded prompt loop would not resolve within the fuel.
-/

namespace Blackjack

/-- Modelled from the spec: `blackjack/models/card.py` is not under `src/`.
A card is `{suit, rank-label, value}`, immutable once constructed (§3). -/
structure Card where
  suit : String
  rank : String
  value : Nat
deriving Repr, DecidableEq

/-- Modelled from the spec: the rank table of `Card.RANKS` (§3): "J","Q","K"
map to 10, "A" to 11 (the input helper takes the higher ace value). -/
def RANKS : List (String × Nat) :=
  [("2", 2), ("3", 3), ("4", 4), ("5", 5), ("6", 6), ("7", 7), ("8", 8),
   ("9", 9), ("10", 10), ("J", 10), ("Q", 10), ("K", 10), ("A", 11)]

/-- Count each ace down from 11 to 1 while the total busts. -/
def reduce_for_aces : Nat → Nat → Nat
  | total, 0 => total
  | total, aces + 1 => if total > 21 then reduce_for_aces (total - 10) aces else total

/-- Modelled from the spec: `Hand.final_total()` of `blackjack/models/hand.py`
(§4.1) — the highest total ≤ 21 when some ace assignment allows one, else the
minimum possible total. -/
def final_total (cards : List Card) : Nat :=
  reduce_for_aces ((cards.map Card.value).sum) ((cards.filter (fun c => c.rank == "A")).length)

/-- Modelled from the spec: `DealerHand` (§3) — the dealer hand adds nothing to
the base hand beyond rendering; a status field is written by the controller. -/
structure DealerHand where
  cards : List Card := []
  status : String := "Pending"
deriving Repr, DecidableEq

/-- Modelled from the spec: `is_blackjack()` (§4.1) — true iff exactly two
cards and total 21 (dealer variant). -/
def DealerHand.is_blackjack (h : DealerHand) : Bool :=
  h.cards.length == 2 && final_total h.cards == 21

/-- Modelled from the spec: `GamblerHand` (§3) — wager, insurance, earnings,
status, nullable outcome, 1-based hand number and the lost-insurance flag,
with the listed initial values. -/
structure GamblerHand where
  cards : List Card := []
  wager : ℚ := 0
  insurance : ℚ := 0
  earnings : ℚ := 0
  status : String := "Pending"
  outcome : Option String := none
  hand_number : Nat := 1
  lost_insurance : Bool := false
deriving Repr, DecidableEq

/-- Modelled from the spec: the `Gambler` account (§3) — name, bankroll,
auto-wager and the ordered hand sequence. -/
structure Gambler where
  name : String := "Gambler"
  bankroll : ℚ := 0
  auto_wager : ℚ := 0
  hands : List GamblerHand := []
deriving Repr, DecidableEq

/-- Modelled from the spec: the `Dealer` account (§3) — name and a nullable
dealer hand. -/
structure Dealer where
  name : String := "Dealer"
  hand : Option DealerHand := none
deriving Repr, DecidableEq

/-- The controller holds exactly one gambler hand per turn (the split path is
a stub), so every hand mutation targets the first hand of the sequence. -/
def Gambler.update_first_hand (g : Gambler) (f : GamblerHand → GamblerHand) : Gambler :=
  match g.hands with
  | [] => g
  | h :: rest => { g with hands := f h :: rest }

/-- Modelled from the spec: `first_hand()` (§4.2). -/
def Gambler.first_hand (g : Gambler) : Option GamblerHand :=
  g.hands.head?

/-- Modelled from the spec: `can_place_auto_wager()` (§4.2) — the auto-wager
fits into the bankroll. -/
def Gambler.can_place_auto_wager (g : Gambler) : Bool :=
  decide (g.auto_wager ≤ g.bankroll)

/-- Modelled from the spec: `can_place_wager(amount)` (used by the double
option check, §4.3) — the amount fits into the bankroll. -/
def Gambler.can_place_wager (g : Gambler) (amount : ℚ) : Bool :=
  decide (amount ≤ g.bankroll)

/-- Modelled from the spec: `set_new_auto_wager(amount)` (§4.2) — fails with
`InsufficientBankrollError` when `amount > bankroll`, otherwise records the
new auto-wager; no state is mutated on failure. -/
def Gambler.set_new_auto_wager (g : Gambler) (amount : ℚ) : Except String Gambler :=
  if amount > g.bankroll then .error "InsufficientBankrollError"
  else .ok { g with auto_wager := amount }

/-- Modelled from the spec: `zero_auto_wager()` (§4.2). -/
def Gambler.zero_auto_wager (g : Gambler) : Gambler :=
  { g with auto_wager := 0 }

/-- Modelled from the spec: `place_auto_wager()` (§4.2) — moves the auto-wager
out of free bankroll into the first hand's wager. -/
def Gambler.place_auto_wager (g : Gambler) : Gambler :=
  let g' := g.update_first_hand (fun h => { h with wager := h.wager + g.auto_wager })
  { g' with bankroll := g'.bankroll - g'.auto_wager }

/-- Modelled from the spec: `can_place_insurance_wager()` (§4.2) — the
bankroll covers half the first hand's wager. -/
def Gambler.can_place_insurance_wager (g : Gambler) : Bool :=
  match g.hands with
  | [] => false
  | h :: _ => decide (h.wager / 2 ≤ g.bankroll)

/-- Modelled from the spec: `place_insurance_wager()` (§4.2, glossary) — the
insurance side wager is half the hand wager, deducted from the bankroll. -/
def Gambler.place_insurance_wager (g : Gambler) : Gambler :=
  match g.hands with
  | [] => g
  | h :: rest =>
      { g with bankroll := g.bankroll - h.wager / 2,
               hands := { h with insurance := h.wager / 2 } :: rest }

/-- Modelled from the spec: `place_hand_wager(amount, hand)` (§4.2) — adds the
amount to the hand's wager and deducts it from the bankroll (used by double;
the hand being played is always the first hand). -/
def Gambler.place_hand_wager (g : Gambler) (amount : ℚ) : Gambler :=
  match g.hands with
  | [] => g
  | h :: rest =>
      { g with bankroll := g.bankroll - amount,
               hands := { h with wager := h.wager + amount } :: rest }

/-- Modelled from the spec: `payout(amount)` (§4.2) — credits the bankroll. -/
def Gambler.payout (g : Gambler) (amount : ℚ) : Gambler :=
  { g with bankroll := g.bankroll + amount }

/-- Modelled from the spec: `discard_hands()` (§4.2). -/
def Gambler.discard_hands (g : Gambler) : Gambler :=
  { g with hands := [] }

/-- Modelled from the spec: the dealer's visible card is the first card of the
dealer hand (§3, `up_card()` read by the controller). -/
def Dealer.up_card (d : Dealer) : Option Card :=
  match d.hand with
  | none => none
  | some h => h.cards.head?

/-- Modelled from the spec: `is_showing_ace()` (§4.1) reads the visible
card's rank. -/
def Dealer.is_showing_ace (d : Dealer) : Bool :=
  match d.up_card with
  | some c => c.rank == "A"
  | none => false

/-- Modelled from the spec: `is_showing_face_card()` (§4.1, §4.4) — the
visible card is a face/ten-value card. -/
def Dealer.is_showing_face_card (d : Dealer) : Bool :=
  match d.up_card with
  | some c => c.value == 10
  | none => false

/-- Modelled from the spec: the dealer's hand is discarded at end of turn. -/
def Dealer.discard_hand (d : Dealer) : Dealer :=
  { d with hand := none }

/-- The metric tracker sink (§6): per turn it receives every gambler hand, the
dealer hand and the bankroll; append-only. -/
structure MetricTracker where
  gambler_hands : List GamblerHand := []
  dealer_hands : List (Option DealerHand) := []
  bankrolls : List ℚ := []
deriving Repr, DecidableEq

/-- The controller state threaded through one turn: the two accounts, the turn
counter and the metric tracker, plus read cursors into the external input
streams (status polls, total prompts, strategy action requests, new-wager
attempts).  `verbose`, `hide_dealer`, `dealer_playing` and the activity log of
the source are presentation-only and are not modelled. -/
structure TurnState where
  gambler : Gambler
  dealer : Dealer := {}
  turn : Nat := 0
  poll_idx : Nat := 0
  total_idx : Nat := 0
  action_idx : Nat := 0
  wager_idx : Nat := 0
  metrics : MetricTracker := {}
deriving Repr, DecidableEq

/-- The external collaborators of one game, each modelled as a stream indexed
by its read cursor: the status-override responses polled at the checkpoints,
the strategy's decisions, and the rank/total inputs of the upstream source. -/
structure Oracle where
  status_response : Nat → Option String := fun _ => none
  wants_to_change_wager : Bool := false
  new_auto_wager : Nat → ℚ := fun _ => 0
  ranks : Nat → String := fun _ => "5"
  totals : Nat → Nat := fun _ => 12
  wants_even_money : Bool := false
  wants_insurance : Bool := false
  actions : Nat → String := fun _ => "Stand"

/-- The fixed token set of `check_for_status_text`. -/
def status_tokens : List String := ["BLACKJACK", "PUSH", "WIN", "BUST", "SURRENDER"]

/-- `check_for_status_text`: polls the status-override channel; a response
outside the fixed token set counts as no override.  (The source normalises
case with `.strip().upper()`; the stream carries the normalised token.) -/
def check_for_status_text (o : Oracle) (s : TurnState) : Option String × TurnState :=
  let response := o.status_response s.poll_idx
  let s' := { s with poll_idx := s.poll_idx + 1 }
  match response with
  | some status => if status ∈ status_tokens then (some status, s') else (none, s')
  | none => (none, s')

/-- `create_dummy_hand(total)`: one card standing for the whole total (the
source labels the rank with the total; the label is never read). -/
def create_dummy_hand (total : Nat) : List Card :=
  [⟨"Spades", "Total", total⟩]

/-- `get_card_input`: re-prompts until the entered rank is in the rank table;
the suit is drawn at random in the source and never read, fixed here. -/
def get_card_input (ranks : Nat → String) : Nat → Nat → Except String (Card × Nat)
  | 0, _ => .error "OUT_OF_FUEL"
  | fuel + 1, idx =>
      let r := ranks idx
      match RANKS.find? (fun p => p.1 == r) with
      | some p => .ok (⟨"Spades", r, p.2⟩, idx + 1)
      | none => get_card_input ranks fuel (idx + 1)

/-- `get_total_input`: re-prompts until the total lies in [4, 21]. -/
def get_total_input (totals : Nat → Nat) : Nat → Nat → Except String (Nat × Nat)
  | 0, _ => .error "OUT_OF_FUEL"
  | fuel + 1, idx =>
      let t := totals idx
      if 4 ≤ t ∧ t ≤ 21 then .ok (t, idx + 1)
      else get_total_input totals fuel (idx + 1)

/-- The dealer-final-total prompt of `play_dealer_turn`: re-prompts while the
total is below the upcard value. -/
def get_dealer_total_input (totals : Nat → Nat) (min_value : Nat) :
    Nat → Nat → Except String (Nat × Nat)
  | 0, _ => .error "OUT_OF_FUEL"
  | fuel + 1, idx =>
      let t := totals idx
      if t < min_value then get_dealer_total_input totals min_value fuel (idx + 1)
      else .ok (t, idx + 1)

/-- `set_hand_status`: assign a new status. -/
def set_hand_status (h : GamblerHand) (status : String) : GamblerHand :=
  { h with status := status }

/-- `set_hand_outcome`: assign the outcome, promoting a still-`Pending` status
to the generic terminal marker `Played`. -/
def set_hand_outcome (h : GamblerHand) (outcome : String) : GamblerHand :=
  let h' : GamblerHand := { h with outcome := some outcome }
  if h'.status = "Pending" then { h' with status := "Played" } else h'

/-- `handle_immediate_status`: the status-override resolution — synthesize a
gambler hand (placing the auto-wager) and a dealer hand when absent, and apply
the fixed status+outcome pair for the detected token to the first hand. -/
def handle_immediate_status (status_text : String) (s : TurnState) : TurnState :=
  let s1 :=
    if s.gambler.hands = [] then
      let g : Gambler := { s.gambler with hands := [({} : GamblerHand)] }
      { s with gambler := g.place_auto_wager }
    else s
  let apply_token (h : GamblerHand) : GamblerHand :=
    if status_text = "BLACKJACK" then set_hand_outcome (set_hand_status h "Blackjack") "Win"
    else if status_text = "PUSH" then set_hand_outcome (set_hand_status h "Stood") "Push"
    else if status_text = "WIN" then set_hand_outcome (set_hand_status h "Stood") "Win"
    else if status_text = "BUST" then set_hand_outcome (set_hand_status h "Busted") "Loss"
    else if status_text = "SURRENDER" then set_hand_outcome (set_hand_status h "Surrendered") "Surrender"
    else h
  let s2 := { s1 with gambler := s1.gambler.update_first_hand apply_token }
  if s2.dealer.hand = none then
    { s2 with dealer := { s2.dealer with hand := some { cards := [⟨"Spades", "Dummy", 10⟩] } } }
  else s2

/-- The retry loop inside the controller's `set_new_auto_wager`: keep asking
the strategy for a new auto-wager until the account accepts it. -/
def set_new_auto_wager_loop (o : Oracle) : Nat → Nat → Gambler → Except String (Gambler × Nat)
  | 0, _, _ => .error "OUT_OF_FUEL"
  | fuel + 1, idx, g =>
      match g.set_new_auto_wager (o.new_auto_wager idx) with
      | .ok g' => .ok (g', idx + 1)
      | .error _ => set_new_auto_wager_loop o fuel (idx + 1) g

/-- `GameController.set_new_auto_wager`: zero the auto-wager, then solicit and
validate a replacement until one is accepted. -/
def controller_set_new_auto_wager (o : Oracle) (fuel : Nat) (s : TurnState) :
    Except String TurnState := do
  let g := s.gambler.zero_auto_wager
  let (g', wi) ← set_new_auto_wager_loop o fuel s.wager_idx g
  .ok { s with gambler := g', wager_idx := wi }

/-- `check_gambler_wager`: clamp an unaffordable auto-wager to the remaining
bankroll, then let the strategy change the wager or cash out. -/
def check_gambler_wager (o : Oracle) (fuel : Nat) (s : TurnState) : Except String TurnState :=
  let s1 :=
    if ¬ s.gambler.can_place_auto_wager then
      match s.gambler.set_new_auto_wager s.gambler.bankroll with
      | .ok g => { s with gambler := g }
      | .error _ => s
    else s
  if o.wants_to_change_wager then controller_set_new_auto_wager o fuel s1
  else .ok s1

/-- `deal`: read the dealer upcard and the gambler's initial total, create the
two hands and commit the auto-wager to the gambler hand. -/
def deal (o : Oracle) (fuel : Nat) (s : TurnState) : Except String TurnState := do
  let (dealer_upcard, _) ← get_card_input o.ranks fuel 0
  let (gambler_total, ti) ← get_total_input o.totals fuel s.total_idx
  let new_hand : GamblerHand := { cards := create_dummy_hand gambler_total }
  let g := { s.gambler with hands := s.gambler.hands ++ [new_hand] }
  let d := { s.dealer with hand := some { cards := [dealer_upcard] } }
  .ok { s with gambler := g.place_auto_wager, dealer := d, total_idx := ti }

/-- `play_pre_turn`: the blackjack / insurance pre-turn flow on the dealt
hand, branching on the dealer's visible card. -/
def play_pre_turn (o : Oracle) (s : TurnState) : TurnState :=
  match s.gambler.hands with
  | [] => s
  | gambler_hand :: _ =>
      let gambler_has_blackjack := final_total gambler_hand.cards == 21
      let dealer_has_blackjack :=
        match s.dealer.hand with
        | some dh => dh.is_blackjack
        | none => false
      if s.dealer.is_showing_ace then
        if gambler_has_blackjack then
          if o.wants_even_money then
            { s with gambler := s.gambler.update_first_hand (set_hand_outcome · "Even Money") }
          else if dealer_has_blackjack then
            { s with gambler := s.gambler.update_first_hand (set_hand_outcome · "Push") }
          else
            { s with gambler := s.gambler.update_first_hand (set_hand_outcome · "Win") }
        else
          let gambler_can_afford_insurance := s.gambler.can_place_insurance_wager
          if gambler_can_afford_insurance && o.wants_insurance then
            let g := s.gambler.place_insurance_wager
            if dealer_has_blackjack then
              { s with gambler := g.update_first_hand (set_hand_outcome · "Insurance Win") }
            else
              { s with gambler := g.update_first_hand (fun h => { h with lost_insurance := true }) }
          else
            if dealer_has_blackjack then
              { s with gambler := s.gambler.update_first_hand (set_hand_outcome · "Loss") }
            else s
      else if s.dealer.is_showing_face_card then
        if dealer_has_blackjack then
          if gambler_has_blackjack then
            { s with gambler := s.gambler.update_first_hand (set_hand_outcome · "Push") }
          else
            { s with gambler := s.gambler.update_first_hand (set_hand_outcome · "Loss") }
        else
          if gambler_has_blackjack then
            { s with gambler := s.gambler.update_first_hand (set_hand_outcome · "Win") }
          else s
      else
        if gambler_has_blackjack then
          { s with gambler := s.gambler.update_first_hand (set_hand_outcome · "Win") }
        else s

/-- `get_hand_options`: Hit and Stand always; Double only on a one-card hand
whose wager the gambler can match.  (Split is never offered.) -/
def get_hand_options (g : Gambler) (h : GamblerHand) : List (String × String) :=
  let options := [("h", "Hit"), ("s", "Stand")]
  if h.cards.length == 1 && g.can_place_wager h.wager then options ++ [("d", "Double")]
  else options

/-- `hit_hand`: read the new total and replace the dummy card with it. -/
def hit_hand (o : Oracle) (fuel : Nat) (s : TurnState) : Except String TurnState := do
  let (new_total, ti) ← get_total_input o.totals fuel s.total_idx
  let g := s.gambler.update_first_hand (fun h => { h with cards := create_dummy_hand new_total })
  .ok { s with total_idx := ti, gambler := g }

/-- `double_hand`: match the current wager, read the new total and mark the
hand `Doubled`. -/
def double_hand (o : Oracle) (fuel : Nat) (s : TurnState) : Except String TurnState := do
  let wager :=
    match s.gambler.first_hand with
    | some h => h.wager
    | none => 0
  let g := s.gambler.place_hand_wager wager
  let (new_total, ti) ← get_total_input o.totals fuel s.total_idx
  let g' := g.update_first_hand (fun h => { h with cards := create_dummy_hand new_total })
  .ok { s with gambler := g'.update_first_hand (set_hand_status · "Doubled"), total_idx := ti }

/-- `handle_surrender`: deduct half the hand's wager from the bankroll and
mark the hand Surrendered with outcome Surrender.  No bound against the
remaining bankroll is checked. -/
def handle_surrender (s : TurnState) : TurnState :=
  let wager :=
    match s.gambler.first_hand with
    | some h => h.wager
    | none => 0
  let g := { s.gambler with bankroll := s.gambler.bankroll - wager / 2 }
  let g' := g.update_first_hand (fun h => set_hand_outcome (set_hand_status h "Surrendered") "Surrender")
  { s with gambler := g' }

/-- The action dispatch of `play_gambler_hand`: the five recognised actions;
anything else raises `Unhandled response.`.  (`Split` is a stub that only logs
a message.) -/
def apply_gambler_action (o : Oracle) (fuel : Nat) (s : TurnState) (action : String) :
    Except String TurnState :=
  if action = "Hit" then hit_hand o fuel s
  else if action = "Stand" then
    .ok { s with gambler := s.gambler.update_first_hand (set_hand_status · "Stood") }
  else if action = "Double" then double_hand o fuel s
  else if action = "Split" then .ok s
  else if action = "Surrender" then .ok (handle_surrender s)
  else .error "Unhandled response."

/-- The post-action check of `play_gambler_hand`: a total of exactly 21 forces
`Stood`; a total over 21 forces `Busted` with outcome `Loss`. -/
def check_hand_after_action (s : TurnState) : TurnState :=
  match s.gambler.first_hand with
  | none => s
  | some h =>
      let current_total := final_total h.cards
      if current_total == 21 then
        { s with gambler := s.gambler.update_first_hand (set_hand_status · "Stood") }
      else if current_total > 21 then
        let bust := fun h' => set_hand_outcome (set_hand_status h' "Busted") "Loss"
        { s with gambler := s.gambler.update_first_hand bust }
      else s

/-- The `while hand.status == Playing` loop of `play_gambler_hand`: one-card
21 resolves as an immediate blackjack win; otherwise poll the override
channel (returning at once when it fires), dispatch the strategy's action and
run the post-action check. -/
def play_gambler_hand_loop (o : Oracle) : Nat → TurnState → Except String TurnState
  | 0, _ => .error "OUT_OF_FUEL"
  | fuel + 1, s =>
      match s.gambler.first_hand with
      | none => .ok s
      | some h =>
          if h.status = "Playing" then
            if h.cards.length == 1 && final_total h.cards == 21 then
              let bj := fun h' => set_hand_outcome (set_hand_status h' "Blackjack") "Win"
              .ok { s with gambler := s.gambler.update_first_hand bj }
            else
              match check_for_status_text o s with
              | (some tok, s') => .ok (handle_immediate_status tok s')
              | (none, s') =>
                  let action := o.actions s'.action_idx
                  let s'' := { s' with action_idx := s'.action_idx + 1 }
                  do
                    let s3 ← apply_gambler_action o fuel s'' action
                    play_gambler_hand_loop o fuel (check_hand_after_action s3)
          else .ok s

/-- `play_gambler_hand`: mark the hand `Playing` and run it to completion. -/
def play_gambler_hand (o : Oracle) (fuel : Nat) (s : TurnState) : Except String TurnState :=
  play_gambler_hand_loop o fuel
    { s with gambler := s.gambler.update_first_hand (set_hand_status · "Playing") }

/-- `play_gambler_turn`: play hands while one is still `Pending`. -/
def play_gambler_turn (o : Oracle) : Nat → TurnState → Except String TurnState
  | 0, _ => .error "OUT_OF_FUEL"
  | fuel + 1, s =>
      if s.gambler.hands.any (fun h => h.status == "Pending") then do
        let s' ← play_gambler_hand o fuel s
        play_gambler_turn o fuel s'
      else .ok s

/-- `play_dealer_turn`: only when some hand ended `Doubled` or `Stood`; read a
dealer final total at least the upcard value, represent the rest as a dummy
card and classify `Busted` or `Stood`. -/
def play_dealer_turn (o : Oracle) (fuel : Nat) (s : TurnState) : Except String TurnState :=
  if ¬ s.gambler.hands.any (fun h => h.status == "Doubled" || h.status == "Stood") then
    .ok s
  else
    match s.dealer.hand with
    | none => .ok s
    | some hand =>
        match hand.cards.head? with
        | none => .ok s
        | some upcard => do
            let (dealer_total, ti) ← get_dealer_total_input o.totals upcard.value fuel s.total_idx
            let remaining_points := dealer_total - upcard.value
            let status := if dealer_total > 21 then "Busted" else "Stood"
            let dh : DealerHand :=
              { cards := [upcard, ⟨"Hidden", "Total", remaining_points⟩], status := status }
            .ok { s with total_idx := ti, dealer := { s.dealer with hand := some dh } }

/-- The amount computation of `perform_hand_payout` (the source passes odds
as a string "a:c" which it splits into antecedent and consequent; the parsed
pair is passed here, `none` where the source passes no odds). -/
def payout_amount (h : GamblerHand) (payout_type : String) (odds : Option (Nat × Nat)) :
    Except String ℚ :=
  if payout_type = "winning_wager" then
    match odds with
    | some (antecedent, consequent) => .ok (h.wager * antecedent / consequent)
    | none => .error "Must specify odds for wager and insurance payouts!"
  else if payout_type = "wager_reclaim" then .ok h.wager
  else if payout_type = "winning_insurance" then
    match odds with
    | some (antecedent, consequent) => .ok (h.insurance * antecedent / consequent)
    | none => .error "Must specify odds for wager and insurance payouts!"
  else if payout_type = "insurance_reclaim" then .ok h.insurance
  else .error "Invalid payout type"

/-- `perform_hand_payout`: compute the amount for the payout type, add it to
the hand's earnings and credit the bankroll by the same amount. -/
def perform_hand_payout (g : Gambler) (h : GamblerHand) (payout_type : String)
    (odds : Option (Nat × Nat)) : Except String (Gambler × GamblerHand) :=
  match payout_amount h payout_type odds with
  | .error e => .error e
  | .ok amount => .ok (g.payout amount, { h with earnings := h.earnings + amount })

/-- `pay_out_hand`: the per-outcome payout chains — winning wagers at 1:1 or
3:2 plus wager reclaim, winning insurance at 2:1 plus insurance reclaim, and
the bare wager reclaim of a push. -/
def pay_out_hand (g : Gambler) (h : GamblerHand) (payout_type : String) :
    Except String (Gambler × GamblerHand) :=
  if payout_type = "wager" then do
    let (g1, h1) ← perform_hand_payout g h "winning_wager" (some (1, 1))
    perform_hand_payout g1 h1 "wager_reclaim" none
  else if payout_type = "blackjack" then do
    let (g1, h1) ← perform_hand_payout g h "winning_wager" (some (3, 2))
    perform_hand_payout g1 h1 "wager_reclaim" none
  else if payout_type = "insurance" then do
    let (g1, h1) ← perform_hand_payout g h "winning_insurance" (some (2, 1))
    perform_hand_payout g1 h1 "insurance_reclaim" none
  else if payout_type = "push" then
    perform_hand_payout g h "wager_reclaim" none
  else .error "Invalid payout type"

/-- `determine_hand_outcome`: busted hand is a Loss; otherwise a busted dealer
hand is a Win; otherwise compare the totals. -/
def determine_hand_outcome (h : GamblerHand) (dealer_hand : DealerHand) : GamblerHand :=
  if h.status = "Busted" then set_hand_outcome h "Loss"
  else if dealer_hand.status = "Busted" then set_hand_outcome h "Win"
  else
    let hand_total := final_total h.cards
    let dealer_hand_total := final_total dealer_hand.cards
    if hand_total > dealer_hand_total then set_hand_outcome h "Win"
    else if hand_total = dealer_hand_total then set_hand_outcome h "Push"
    else set_hand_outcome h "Loss"

/-- `settle_hand`: determine a still-unset outcome against the dealer hand,
then pay per outcome — Win at 3:2 when the status is Blackjack or the total is
21 and at 1:1 otherwise, Push and Even Money and Insurance Win per their
payout types, Loss and Surrender log only, and any other outcome raises. -/
def settle_hand (g : Gambler) (h : GamblerHand) (dealer_hand : DealerHand) :
    Except String (Gambler × GamblerHand) :=
  let h1 := if h.outcome = none then determine_hand_outcome h dealer_hand else h
  if h1.outcome = some "Win" then
    if h1.status = "Blackjack" ∨ final_total h1.cards = 21 then pay_out_hand g h1 "blackjack"
    else pay_out_hand g h1 "wager"
  else if h1.outcome = some "Push" then pay_out_hand g h1 "push"
  else if h1.outcome = some "Even Money" then pay_out_hand g h1 "wager"
  else if h1.outcome = some "Insurance Win" then pay_out_hand g h1 "insurance"
  else if h1.outcome = some "Loss" then .ok (g, h1)
  else if h1.outcome = some "Surrender" then .ok (g, h1)
  else .error "Unhandled hand outcome"

/-- The hand fold of `settle_up`: settle each hand in order, threading the
gambler's bankroll through. -/
def settle_up_hands (g : Gambler) (hands : List GamblerHand) (dealer_hand : DealerHand) :
    Except String (Gambler × List GamblerHand) :=
  match hands with
  | [] => .ok (g, [])
  | h :: rest => do
      let (g1, h1) ← settle_hand g h dealer_hand
      let (g2, rest1) ← settle_up_hands g1 rest dealer_hand
      .ok (g2, h1 :: rest1)

/-- `settle_up`: settle every gambler hand against the dealer's hand. -/
def settle_up (s : TurnState) : Except String TurnState :=
  match s.dealer.hand with
  | none => .error "No dealer hand"
  | some dealer_hand => do
      let (g, hands) ← settle_up_hands s.gambler s.gambler.hands dealer_hand
      .ok { s with gambler := { g with hands := hands } }

/-- `track_metrics`: record every gambler hand, the dealer hand and the
current bankroll with the metric tracker. -/
def track_metrics (s : TurnState) : TurnState :=
  let m := s.metrics
  let m1 := { m with gambler_hands := m.gambler_hands ++ s.gambler.hands }
  let m2 := { m1 with dealer_hands := m1.dealer_hands ++ [s.dealer.hand] }
  let m3 := { m2 with bankrolls := m2.bankrolls ++ [s.gambler.bankroll] }
  { s with metrics := m3 }

/-- `finalize_turn`: track metrics, then discard both parties' hands.  (The
activity-log reset and the render pause are presentation only.) -/
def finalize_turn (s : TurnState) : TurnState :=
  let s1 := track_metrics s
  let s2 := { s1 with gambler := s1.gambler.discard_hands }
  { s2 with dealer := s2.dealer.discard_hand }

/-- One iteration of the `while` body of `GameController.play`: bump the turn
counter, then run the checkpointed flow — every status poll that returns a
token diverts to `handle_immediate_status` followed by `finalize_turn`,
skipping everything that remains of the turn (including settlement). -/
def play_turn (o : Oracle) (fuel : Nat) (s : TurnState) : Except String TurnState :=
  let s0 := { s with turn := s.turn + 1 }
  match check_for_status_text o s0 with
  | (some tok, s1) => .ok (finalize_turn (handle_immediate_status tok s1))
  | (none, s1) => do
      let s2 ← check_gambler_wager o fuel s1
      if s2.gambler.auto_wager = 0 then .ok s2
      else do
        let s3 ← deal o fuel s2
        match check_for_status_text o s3 with
        | (some tok, s4) => .ok (finalize_turn (handle_immediate_status tok s4))
        | (none, s4) => do
            let s5 := play_pre_turn o s4
            match check_for_status_text o s5 with
            | (some tok, s6) => .ok (finalize_turn (handle_immediate_status tok s6))
            | (none, s6) => do
                let s7 ← play_gambler_turn o fuel s6
                match check_for_status_text o s7 with
                | (some tok, s8) => .ok (finalize_turn (handle_immediate_status tok s8))
                | (none, s8) => do
                    let s9 ← play_dealer_turn o fuel s8
                    let s10 ← settle_up s9
                    .ok (finalize_turn s10)

/-! ### Spec-side definitions (written from the spec's words, for comparison
with the embedded code) and concrete instances used by individual theorems. -/

/-- The fixed status+outcome table the spec gives for the override channel
(§4.5): Blackjack, Push, Win, Bust, Surrender tokens. -/
def spec_override_mapping : String → String × Option String
  | "BLACKJACK" => ("Blackjack", some "Win")
  | "PUSH" => ("Stood", some "Push")
  | "WIN" => ("Stood", some "Win")
  | "BUST" => ("Busted", some "Loss")
  | "SURRENDER" => ("Surrendered", some "Surrender")
  | _ => ("", none)

/-- The fixed odds table of the spec (§4.4 step 8): the settlement credit due
for each outcome — 3:2 plus wager reclaim for a Win with Blackjack status or
total 21, 1:1 plus reclaim for other Wins and Even Money, reclaim alone for a
Push, 2:1 plus insurance reclaim for an Insurance Win, nothing for Loss and
Surrender — and `none` outside the fixed outcome set. -/
def spec_settlement_credit (h : GamblerHand) : Option ℚ :=
  match h.outcome with
  | some "Win" =>
      if h.status = "Blackjack" ∨ final_total h.cards = 21
      then some (h.wager * 3 / 2 + h.wager) else some (h.wager + h.wager)
  | some "Push" => some h.wager
  | some "Even Money" => some (h.wager + h.wager)
  | some "Insurance Win" => some (h.insurance * 2 + h.insurance)
  | some "Loss" => some 0
  | some "Surrender" => some 0
  | _ => none

/-- The comparison rule of the spec for a still-unset outcome (§4.4 step 8):
busted gambler loses, else busted dealer means a win, else compare totals. -/
def spec_compare_outcome (h : GamblerHand) (dealer_hand : DealerHand) : String :=
  if h.status = "Busted" then "Loss"
  else if dealer_hand.status = "Busted" then "Win"
  else if final_total h.cards > final_total dealer_hand.cards then "Win"
  else if final_total h.cards = final_total dealer_hand.cards then "Push"
  else "Loss"

/-- A payout relates the account and hand before and after: the bankroll and
the earnings move by the same amount and nothing else changes. -/
def PayoutOnly (g g' : Gambler) (h h' : GamblerHand) : Prop :=
  g'.bankroll - g.bankroll = h'.earnings - h.earnings ∧
  g'.name = g.name ∧ g'.auto_wager = g.auto_wager ∧ g'.hands = g.hands ∧
  h'.cards = h.cards ∧ h'.wager = h.wager ∧ h'.insurance = h.insurance ∧
  h'.status = h.status ∧ h'.outcome = h.outcome

/-- A fresh game state: a bankroll, an auto-wager, no hands dealt. -/
def fresh_state (bankroll auto_wager : ℚ) : TurnState :=
  { gambler := { bankroll := bankroll, auto_wager := auto_wager } }

/-- An oracle whose first status poll reports the WIN token. -/
def c1_oracle : Oracle :=
  { status_response := fun n => if n = 0 then some "WIN" else none }

/-- The fresh 100/10 state after the turn-counter bump and the first status
poll (the state the override resolution receives). -/
def c1_polled_state : TurnState :=
  { fresh_state 100 10 with turn := (fresh_state 100 10).turn + 1, poll_idx := (fresh_state 100 10).poll_idx + 1 }

/-- An oracle whose strategy always surrenders a dealt total of 12 against an
upcard of 5, with no override firing. -/
def surrender_oracle : Oracle :=
  { actions := fun _ => "Surrender", totals := fun _ => 12, ranks := fun _ => "5" }

/-- An oracle dealing the gambler a total of 21 against an upcard of 5. -/
def blackjack_deal_oracle : Oracle :=
  { totals := fun _ => 21, ranks := fun _ => "5" }

/-- The state reached by dealing a 21 to a fresh 100/10 gambler and running
the pre-turn flow (the point right before the third override checkpoint). -/
def blackjack_pre_turn_state : TurnState :=
  match deal blackjack_deal_oracle 10 (fresh_state 100 10) with
  | .ok s => play_pre_turn blackjack_deal_oracle s
  | .error _ => fresh_state 100 10

/-- A hand of total 12 with wager 10, currently being played. -/
def playing_hand : GamblerHand :=
  { cards := create_dummy_hand 12, wager := 10, status := "Playing" }

/-- A mid-turn state with one playing hand of total 12 and wager 10. -/
def playing_hand_state : TurnState :=
  { gambler := { bankroll := 90, auto_wager := 10, hands := [playing_hand] },
    dealer := { hand := some { cards := [⟨"Spades", "5", 5⟩] } } }

/-- A hand carrying an outcome outside the fixed outcome set. -/
def weird_outcome_hand : GamblerHand := { status := "Stood", outcome := some "Banana" }

/-- A hand that stood on 18 with wager 10, outcome still unset. -/
def stood_hand : GamblerHand :=
  { cards := create_dummy_hand 18, wager := 10, status := "Stood" }

/-- A pushed hand: stood on 18, wager 10, outcome already Push. -/
def pushed_hand : GamblerHand :=
  { cards := create_dummy_hand 18, wager := 10, status := "Stood", outcome := some "Push" }

/-- A dealer hand that stood on 20. -/
def dealer_20 : DealerHand :=
  { cards := [⟨"Spades", "K", 10⟩, ⟨"Hidden", "Total", 10⟩], status := "Stood" }

/-- A gambler account with bankroll 100 and no hands, for payout theorems. -/
def bare_gambler : Gambler := { bankroll := 100 }

/-- The result of settling the pushed hand against the standing dealer. -/
def pushed_settlement : Gambler × GamblerHand :=
  match settle_hand bare_gambler pushed_hand dealer_20 with
  | .ok p => p
  | .error _ => (bare_gambler, pushed_hand)

/-- The result of reclaiming the stood hand's wager. -/
def reclaim_result : Gambler × GamblerHand :=
  match perform_hand_payout bare_gambler stood_hand "wager_reclaim" none with
  | .ok p => p
  | .error _ => (bare_gambler, stood_hand)

/-- An oracle that hits once into a total of 21. -/
def hit_to_21_oracle : Oracle := { actions := fun _ => "Hit", totals := fun _ => 21 }

/-- The state after hitting the playing hand to 21 (before the post-action
check). -/
def hit_to_21_state : TurnState :=
  match apply_gambler_action hit_to_21_oracle 10 playing_hand_state "Hit" with
  | .ok s => s
  | .error _ => playing_hand_state

/-- The first hand after the post-action check of the hit to 21. -/
def hit_checked_hand : GamblerHand :=
  match (check_hand_after_action hit_to_21_state).gambler.first_hand with
  | some h => h
  | none => {}

/-- A dealt state: gambler holds a 21 with wager 10, dealer shows an ace,
used to instantiate the pre-turn theorem. -/
def ace_blackjack_state : TurnState :=
  { gambler := { bankroll := 90, auto_wager := 10,
                 hands := [{ cards := create_dummy_hand 21, wager := 10 }] },
    dealer := { hand := some { cards := [⟨"Spades", "A", 11⟩] } } }

/-- An oracle that takes even money. -/
def even_money_oracle : Oracle := { wants_even_money := true }

/-- An oracle whose fourth status poll — the per-action checkpoint inside the
gambler-hand loop on a turn with no earlier token — reports WIN, with all
other polls silent; it deals a total of 12 against an upcard of 5. -/
def midhand_win_oracle : Oracle :=
  { status_response := fun n => if n = 3 then some "WIN" else none,
    totals := fun _ => 12, ranks := fun _ => "5" }

/-! ### Helper lemmas -/

theorem first_hand_update (g : Gambler) (f : GamblerHand → GamblerHand) :
    (g.update_first_hand f).first_hand = g.first_hand.map f := by
  cases hs : g.hands <;> simp [Gambler.update_first_hand, Gambler.first_hand, hs]

theorem set_hand_outcome_outcome (h : GamblerHand) (o : String) :
    (set_hand_outcome h o).outcome = some o := by
  simp only [set_hand_outcome]
  split <;> rfl

theorem set_hand_outcome_money (h : GamblerHand) (o : String) :
    (set_hand_outcome h o).earnings = h.earnings ∧ (set_hand_outcome h o).cards = h.cards ∧
    (set_hand_outcome h o).wager = h.wager ∧ (set_hand_outcome h o).insurance = h.insurance := by
  simp only [set_hand_outcome]
  split <;> exact ⟨rfl, rfl, rfl, rfl⟩

theorem determine_hand_outcome_outcome (h : GamblerHand) (dh : DealerHand) :
    (determine_hand_outcome h dh).outcome = some (spec_compare_outcome h dh) := by
  simp only [determine_hand_outcome, spec_compare_outcome]
  split_ifs <;> simp [set_hand_outcome_outcome]

theorem determine_hand_outcome_earnings (h : GamblerHand) (dh : DealerHand) :
    (determine_hand_outcome h dh).earnings = h.earnings := by
  simp only [determine_hand_outcome]
  split_ifs <;> exact (set_hand_outcome_money _ _).1

theorem spec_compare_outcome_mem (h : GamblerHand) (dh : DealerHand) :
    spec_compare_outcome h dh = "Win" ∨ spec_compare_outcome h dh = "Push" ∨
      spec_compare_outcome h dh = "Loss" := by
  unfold spec_compare_outcome
  split_ifs <;> simp

theorem PayoutOnly.trans {g g1 g' : Gambler} {h h1 h' : GamblerHand}
    (a : PayoutOnly g g1 h h1) (b : PayoutOnly g1 g' h1 h') : PayoutOnly g g' h h' := by
  obtain ⟨a1, a2, a3, a4, a5, a6, a7, a8, a9⟩ := a
  obtain ⟨b1, b2, b3, b4, b5, b6, b7, b8, b9⟩ := b
  exact ⟨by linarith, by simp [a2, b2], by simp [a3, b3], by simp [a4, b4], by simp [a5, b5],
    by simp [a6, b6], by simp [a7, b7], by simp [a8, b8], by simp [a9, b9]⟩

theorem perform_hand_payout_payout_only {g g' : Gambler} {h h' : GamblerHand}
    {payout_type : String} {odds : Option (Nat × Nat)}
    (e : perform_hand_payout g h payout_type odds = .ok (g', h')) :
    PayoutOnly g g' h h' := by
  unfold perform_hand_payout at e
  cases ha : payout_amount h payout_type odds with
  | error msg => rw [ha] at e; exact absurd e (by simp)
  | ok amount =>
      rw [ha] at e
      simp only [Except.ok.injEq, Prod.mk.injEq] at e
      obtain ⟨eg, eh⟩ := e
      subst eg
      subst eh
      exact ⟨by simp [Gambler.payout], rfl, rfl, rfl, rfl, rfl, rfl, rfl, rfl⟩

theorem pay_out_hand_payout_only {g g' : Gambler} {h h' : GamblerHand} {payout_type : String}
    (e : pay_out_hand g h payout_type = .ok (g', h')) : PayoutOnly g g' h h' := by
  have step :
      ∀ (t1 : String) (odds : Option (Nat × Nat)) (t2 : String),
        ((do
            let (g1, h1) ← perform_hand_payout g h t1 odds
            perform_hand_payout g1 h1 t2 none) : Except String (Gambler × GamblerHand)) = .ok (g', h') →
        PayoutOnly g g' h h' := by
    intro t1 odds t2 e2
    cases e1 : perform_hand_payout g h t1 odds with
    | error m => rw [e1] at e2; exact absurd e2 (by simp [Bind.bind, Except.bind])
    | ok p =>
        obtain ⟨g1, h1⟩ := p
        rw [e1] at e2
        simp only [Bind.bind, Except.bind] at e2
        exact (perform_hand_payout_payout_only e1).trans (perform_hand_payout_payout_only e2)
  unfold pay_out_hand at e
  split_ifs at e
  · exact step _ _ _ e
  · exact step _ _ _ e
  · exact step _ _ _ e
  · exact perform_hand_payout_payout_only e

theorem pay_out_hand_wager_eq (g : Gambler) (h : GamblerHand) :
    pay_out_hand g h "wager" =
      .ok (Gambler.payout (Gambler.payout g (h.wager * ((1 : Nat) : ℚ) / ((1 : Nat) : ℚ))) h.wager,
           { h with earnings := h.earnings + h.wager * ((1 : Nat) : ℚ) / ((1 : Nat) : ℚ) + h.wager }) :=
  rfl

theorem pay_out_hand_blackjack_eq (g : Gambler) (h : GamblerHand) :
    pay_out_hand g h "blackjack" =
      .ok (Gambler.payout (Gambler.payout g (h.wager * ((3 : Nat) : ℚ) / ((2 : Nat) : ℚ))) h.wager,
           { h with earnings := h.earnings + h.wager * ((3 : Nat) : ℚ) / ((2 : Nat) : ℚ) + h.wager }) :=
  rfl

theorem pay_out_hand_insurance_eq (g : Gambler) (h : GamblerHand) :
    pay_out_hand g h "insurance" =
      .ok (Gambler.payout (Gambler.payout g (h.insurance * ((2 : Nat) : ℚ) / ((1 : Nat) : ℚ))) h.insurance,
           { h with earnings := h.earnings + h.insurance * ((2 : Nat) : ℚ) / ((1 : Nat) : ℚ) + h.insurance }) :=
  rfl

theorem pay_out_hand_push_eq (g : Gambler) (h : GamblerHand) :
    pay_out_hand g h "push" =
      .ok (Gambler.payout g h.wager, { h with earnings := h.earnings + h.wager }) :=
  rfl

theorem settle_hand_ok_facts {g g' : Gambler} {h h' : GamblerHand} {dh : DealerHand}
    (e : settle_hand g h dh = .ok (g', h')) :
    g'.bankroll - g.bankroll = h'.earnings - h.earnings ∧
    g'.hands = g.hands ∧
    h'.outcome = (if h.outcome = none then determine_hand_outcome h dh else h).outcome := by
  unfold settle_hand at e
  set h1 := if h.outcome = none then determine_hand_outcome h dh else h with hh1
  have he1 : h1.earnings = h.earnings := by
    rw [hh1]
    split
    · exact determine_hand_outcome_earnings h dh
    · rfl
  have from_payout : ∀ {t : String}, pay_out_hand g h1 t = .ok (g', h') →
      g'.bankroll - g.bankroll = h'.earnings - h.earnings ∧
      g'.hands = g.hands ∧ h'.outcome = h1.outcome := by
    intro t ep
    obtain ⟨d, _, _, hhands, _, _, _, _, hout⟩ := pay_out_hand_payout_only ep
    exact ⟨by rw [d, he1], hhands, hout⟩
  dsimp only at e
  split_ifs at e
  · exact from_payout e
  · exact from_payout e
  · exact from_payout e
  · exact from_payout e
  · exact from_payout e
  · simp only [Except.ok.injEq, Prod.mk.injEq] at e
    obtain ⟨eg, eh⟩ := e
    subst eg
    subst eh
    exact ⟨by rw [he1]; ring, rfl, rfl⟩
  · simp only [Except.ok.injEq, Prod.mk.injEq] at e
    obtain ⟨eg, eh⟩ := e
    subst eg
    subst eh
    exact ⟨by rw [he1]; ring, rfl, rfl⟩

theorem settle_up_hands_delta {dh : DealerHand} :
    ∀ (hands : List GamblerHand) (g g' : Gambler) (hands' : List GamblerHand),
      settle_up_hands g hands dh = .ok (g', hands') →
      g'.bankroll - g.bankroll =
        (hands'.map GamblerHand.earnings).sum - (hands.map GamblerHand.earnings).sum := by
  intro hands
  induction hands with
  | nil =>
      intro g g' hands' e
      simp only [settle_up_hands, Except.ok.injEq, Prod.mk.injEq] at e
      obtain ⟨eg, eh⟩ := e
      subst eg
      subst eh
      simp
  | cons h t ih =>
      intro g g' hands' e
      unfold settle_up_hands at e
      cases e1 : settle_hand g h dh with
      | error m => rw [e1] at e; exact absurd e (by simp [Bind.bind, Except.bind])
      | ok p =>
          obtain ⟨g1, h1⟩ := p
          rw [e1] at e
          simp only [Bind.bind, Except.bind] at e
          cases e2 : settle_up_hands g1 t dh with
          | error m => rw [e2] at e; exact absurd e (by simp)
          | ok q =>
              obtain ⟨g2, rest1⟩ := q
              rw [e2] at e
              simp only [Except.ok.injEq, Prod.mk.injEq] at e
              obtain ⟨eg, eh⟩ := e
              subst eg
              subst eh
              have d1 := (settle_hand_ok_facts e1).1
              have d2 := ih g1 g2 rest1 e2
              simp only [List.map_cons, List.sum_cons]
              linarith

/-! ### Claim theorems -/

/-- C2 (amended): `set_new_auto_wager` fails with `InsufficientBankrollError`
and mutates nothing whenever the amount exceeds the bankroll, and succeeds
otherwise; but the surrender deduction is NOT bounded by the remaining
bankroll — `handle_surrender` subtracts half the first hand's wager from the
bankroll unconditionally, so the bankroll goes negative exactly when it held
less than half the wager. -/
theorem set_new_auto_wager_guard_and_surrender_unbounded :
    (∀ (g : Gambler) (amount : ℚ), amount > g.bankroll →
        g.set_new_auto_wager amount = .error "InsufficientBankrollError") ∧
    (∀ (g : Gambler) (amount : ℚ), amount ≤ g.bankroll →
        g.set_new_auto_wager amount = .ok { g with auto_wager := amount }) ∧
    (∀ s : TurnState,
        (handle_surrender s).gambler.bankroll =
          s.gambler.bankroll -
            (match s.gambler.first_hand with | some h => h.wager | none => 0) / 2) := by
  refine ⟨?_, ?_, ?_⟩
  · intro g amount hgt
    simp [Gambler.set_new_auto_wager, hgt]
  · intro g amount hle
    simp [Gambler.set_new_auto_wager, not_lt.mpr hle]
  · intro s
    unfold handle_surrender
    cases hs : s.gambler.hands <;>
      simp [Gambler.update_first_hand, Gambler.first_hand, hs]

/-- Witness for C2's theorem at concrete inputs (Scenario D numbers). -/
theorem set_new_auto_wager_guard_and_surrender_unbounded_witness :
    Gambler.set_new_auto_wager { bankroll := 10 } 50 = .error "InsufficientBankrollError" ∧
    Gambler.set_new_auto_wager { bankroll := 10 } 10
        = .ok { ({ bankroll := 10 } : Gambler) with auto_wager := 10 } ∧
    (handle_surrender playing_hand_state).gambler.bankroll =
      playing_hand_state.gambler.bankroll -
        (match playing_hand_state.gambler.first_hand with | some h => h.wager | none => 0) / 2 :=
  ⟨set_new_auto_wager_guard_and_surrender_unbounded.1 _ 50 (by norm_num),
   set_new_auto_wager_guard_and_surrender_unbounded.2.1 _ 10 (by norm_num),
   set_new_auto_wager_guard_and_surrender_unbounded.2.2 playing_hand_state⟩

/-- C2 counterexample: wagering the whole bankroll of 100 and then
surrendering is a sequence of valid operations after which the bankroll is
-50, i.e. negative — refuting the claimed invariant. -/
theorem surrender_drives_bankroll_negative_cex :
    (play_turn surrender_oracle 30 (fresh_state 100 100)).map (fun s => s.gambler.bankroll)
        = .ok (-50) ∧
    ((-50 : ℚ) < 0) := by
  constructor
  · simp [play_turn, check_for_status_text, surrender_oracle, fresh_state, check_gambler_wager,
      Gambler.can_place_auto_wager, deal, get_card_input, get_total_input, RANKS,
      create_dummy_hand, Gambler.place_auto_wager, Gambler.update_first_hand, play_pre_turn,
      Dealer.is_showing_ace, Dealer.is_showing_face_card, Dealer.up_card, DealerHand.is_blackjack,
      final_total, reduce_for_aces, play_gambler_turn, play_gambler_hand, play_gambler_hand_loop,
      apply_gambler_action, handle_surrender, Gambler.first_hand, check_hand_after_action,
      play_dealer_turn, settle_up, settle_up_hands, settle_hand, set_hand_status,
      set_hand_outcome, determine_hand_outcome, finalize_turn, track_metrics,
      Gambler.discard_hands, Dealer.discard_hand, Except.map, Bind.bind, Except.bind]
    norm_num
  · norm_num

/-- C6: at settlement, a gambler hand whose outcome is still unset gets its
outcome from comparison with the dealer hand — a busted hand is a Loss, else
a busted dealer hand makes it a Win, else a strictly greater total is a Win,
equal totals a Push, and a lower total a Loss. -/
theorem settlement_determines_unset_outcome_by_comparison
    (g : Gambler) (h : GamblerHand) (dealer_hand : DealerHand)
    (hout : h.outcome = none) :
    (determine_hand_outcome h dealer_hand).outcome
        = some (spec_compare_outcome h dealer_hand) ∧
    (settle_hand g h dealer_hand).map (fun p => p.2.outcome)
        = .ok (some (spec_compare_outcome h dealer_hand)) := by
  refine ⟨determine_hand_outcome_outcome h dealer_hand, ?_⟩
  unfold settle_hand
  rw [if_pos hout]
  set h1 := determine_hand_outcome h dealer_hand with hh1
  have ho1 : h1.outcome = some (spec_compare_outcome h dealer_hand) := by
    rw [hh1]
    exact determine_hand_outcome_outcome h dealer_hand
  rcases spec_compare_outcome_mem h dealer_hand with hc | hc | hc <;> rw [hc] at ho1
  · by_cases hbs : h1.status = "Blackjack" ∨ final_total h1.cards = 21
    · simp [ho1, hbs, pay_out_hand_blackjack_eq, Except.map, hc]
    · simp [ho1, hbs, pay_out_hand_wager_eq, Except.map, hc]
  · simp [ho1, pay_out_hand_push_eq, Except.map, hc]
  · simp [ho1, Except.map, hc]

/-- Witness for C6's theorem: a stood 18 against a standing dealer 20. -/
theorem settlement_determines_unset_outcome_by_comparison_witness :
    (determine_hand_outcome stood_hand dealer_20).outcome
        = some (spec_compare_outcome stood_hand dealer_20) ∧
    (settle_hand bare_gambler stood_hand dealer_20).map (fun p => p.2.outcome)
        = .ok (some (spec_compare_outcome stood_hand dealer_20)) :=
  settlement_determines_unset_outcome_by_comparison bare_gambler stood_hand dealer_20 rfl

/-- C7: after any of the five gambler actions, the post-action check forces a
hand whose total is exactly 21 to status Stood, and a hand whose total
exceeds 21 to status Busted with outcome Loss. -/
theorem post_action_totals_force_status
    (o : Oracle) (fuel : Nat) (s s' : TurnState) (action : String)
    (hact : action ∈ ["Hit", "Stand", "Double", "Split", "Surrender"])
    (e : apply_gambler_action o fuel s action = .ok s')
    (h : GamblerHand) (hh : (check_hand_after_action s').gambler.first_hand = some h) :
    (final_total h.cards = 21 → h.status = "Stood") ∧
    (final_total h.cards > 21 → h.status = "Busted" ∧ h.outcome = some "Loss") := by
  clear hact e
  cases hf : s'.gambler.first_hand with
  | none =>
      simp only [check_hand_after_action, hf] at hh
      exact absurd hh (by simp)
  | some h0 =>
      simp only [check_hand_after_action, hf] at hh
      by_cases h21 : final_total h0.cards = 21
      · rw [h21] at hh
        simp [first_hand_update, hf] at hh
        subst hh
        refine ⟨fun _ => rfl, fun hgt => ?_⟩
        have hc : final_total (set_hand_status h0 "Stood").cards = 21 := h21
        omega
      · by_cases hgt : final_total h0.cards > 21
        · have hbeq : (final_total h0.cards == 21) = false := by
            simp [h21]
          simp only [hbeq, Bool.false_eq_true, if_false, if_pos hgt, first_hand_update, hf,
            Option.map_some', Option.some.injEq] at hh
          subst hh
          constructor
          · intro h21'
            have hc : (set_hand_outcome (set_hand_status h0 "Busted") "Loss").cards
                = h0.cards := (set_hand_outcome_money (set_hand_status h0 "Busted") "Loss").2.1
            rw [hc] at h21'
            omega
          · intro _
            constructor
            · simp [set_hand_outcome, set_hand_status]
            · exact set_hand_outcome_outcome _ _
        · have hbeq : (final_total h0.cards == 21) = false := by
            simp [h21]
          simp only [hbeq, Bool.false_eq_true, if_false, if_neg hgt, hf,
            Option.some.injEq] at hh
          subst hh
          exact ⟨fun hx => absurd hx h21, fun hx => absurd hx hgt⟩

/-- Witness for C7's theorem: hitting a 12 into 21 forces status Stood. -/
theorem post_action_totals_force_status_witness :
    (final_total hit_checked_hand.cards = 21 → hit_checked_hand.status = "Stood") ∧
    (final_total hit_checked_hand.cards > 21 →
        hit_checked_hand.status = "Busted" ∧ hit_checked_hand.outcome = some "Loss") :=
  post_action_totals_force_status hit_to_21_oracle 10 playing_hand_state hit_to_21_state "Hit"
    (by simp) (by rfl) hit_checked_hand (by rfl)

/-- C8 (amended): only an action outside the fixed five-action set
Hit/Stand/Double/Split/Surrender aborts the turn loop with `Unhandled
response.` (an action inside the set but outside the offered options is still
processed), and an outcome outside the fixed outcome set at settlement aborts
with `Unhandled hand outcome`. -/
theorem unknown_action_and_outcome_fatal
    (o : Oracle) (fuel : Nat) (s : TurnState) (action : String)
    (hact : action ∉ ["Hit", "Stand", "Double", "Split", "Surrender"])
    (g : Gambler) (h : GamblerHand) (dealer_hand : DealerHand)
    (hset : ¬ h.outcome = none)
    (hbad : ∀ v ∈ ["Win", "Push", "Even Money", "Insurance Win", "Loss", "Surrender"],
        ¬ h.outcome = some v) :
    apply_gambler_action o fuel s action = .error "Unhandled response." ∧
    settle_hand g h dealer_hand = .error "Unhandled hand outcome" := by
  simp only [List.mem_cons, List.not_mem_nil, or_false, not_or] at hact
  obtain ⟨n1, n2, n3, n4, n5⟩ := hact
  constructor
  · simp [apply_gambler_action, n1, n2, n3, n4, n5]
  · have b1 := hbad "Win" (by simp)
    have b2 := hbad "Push" (by simp)
    have b3 := hbad "Even Money" (by simp)
    have b4 := hbad "Insurance Win" (by simp)
    have b5 := hbad "Loss" (by simp)
    have b6 := hbad "Surrender" (by simp)
    unfold settle_hand
    rw [if_neg hset]
    simp [b1, b2, b3, b4, b5, b6]

/-- Witness for C8's theorem: the action "Fold" and the outcome "Banana" are
both fatal. -/
theorem unknown_action_and_outcome_fatal_witness :
    apply_gambler_action ({} : Oracle) 5 playing_hand_state "Fold"
        = .error "Unhandled response." ∧
    settle_hand bare_gambler weird_outcome_hand dealer_20
        = .error "Unhandled hand outcome" :=
  unknown_action_and_outcome_fatal ({} : Oracle) 5 playing_hand_state "Fold" (by decide)
    bare_gambler weird_outcome_hand dealer_20 (by decide) (by decide)

/-- C3: at settlement every gambler hand with a set outcome is paid exactly
per the fixed odds table — Win at 3:2 plus reclaim when the status is
Blackjack or the total is 21, Win at 1:1 plus reclaim otherwise, Push reclaim
only, Even Money at 1:1 plus reclaim, Insurance Win at 2:1 plus insurance
reclaim, Loss and Surrender nothing — and any outcome outside the fixed set
is a fatal error. -/
theorem settle_hand_pays_fixed_odds_table
    (g : Gambler) (h : GamblerHand) (dealer_hand : DealerHand)
    (hset : h.outcome.isSome) :
    (settle_hand g h dealer_hand).map (fun p => (p.1.bankroll, p.2.earnings)) =
      match spec_settlement_credit h with
      | some credit => .ok (g.bankroll + credit, h.earnings + credit)
      | none => .error "Unhandled hand outcome" := by
  obtain ⟨ov, hov⟩ := Option.isSome_iff_exists.mp hset
  have hnn : ¬ h.outcome = none := by simp [hov]
  by_cases w1 : ov = "Win"
  · subst w1
    by_cases w2 : h.status = "Blackjack" ∨ final_total h.cards = 21
    · simp [settle_hand, spec_settlement_credit, hnn, hov, w2,
        pay_out_hand_blackjack_eq, Gambler.payout, Except.map]
      constructor <;> push_cast <;> ring
    · simp [settle_hand, spec_settlement_credit, hnn, hov, w2,
        pay_out_hand_wager_eq, Gambler.payout, Except.map]
      constructor <;> push_cast <;> ring
  · by_cases w2 : ov = "Push"
    · subst w2
      simp [settle_hand, spec_settlement_credit, hnn, hov,
        pay_out_hand_push_eq, Gambler.payout, Except.map]
    · by_cases w3 : ov = "Even Money"
      · subst w3
        simp [settle_hand, spec_settlement_credit, hnn, hov,
          pay_out_hand_wager_eq, Gambler.payout, Except.map]
        constructor <;> push_cast <;> ring
      · by_cases w4 : ov = "Insurance Win"
        · subst w4
          simp [settle_hand, spec_settlement_credit, hnn, hov,
            pay_out_hand_insurance_eq, Gambler.payout, Except.map]
          constructor <;> push_cast <;> ring
        · by_cases w5 : ov = "Loss"
          · subst w5
            simp [settle_hand, spec_settlement_credit, hnn, hov, Except.map]
          · by_cases w6 : ov = "Surrender"
            · subst w6
              simp [settle_hand, spec_settlement_credit, hnn, hov, Except.map]
            · simp [settle_hand, spec_settlement_credit, hnn, hov, w1, w2, w3, w4, w5, w6,
                Except.map]

/-- Witness for C3's theorem: settling an already-pushed hand reclaims the
wager. -/
theorem settle_hand_pays_fixed_odds_table_witness :
    (settle_hand bare_gambler pushed_hand dealer_20).map
        (fun p => (p.1.bankroll, p.2.earnings)) =
      match spec_settlement_credit pushed_hand with
      | some credit => .ok (bare_gambler.bankroll + credit, pushed_hand.earnings + credit)
      | none => .error "Unhandled hand outcome" :=
  settle_hand_pays_fixed_odds_table bare_gambler pushed_hand dealer_20 rfl

/-- C10: every per-hand payout credits the gambler's bankroll and the hand's
earnings by the identical amount, so over a settlement the bankroll increase
equals the total earnings increase across the hands. -/
theorem payout_credits_bankroll_and_earnings_equally :
    (∀ (g g' : Gambler) (h h' : GamblerHand) (payout_type : String) (odds : Option (Nat × Nat)),
        perform_hand_payout g h payout_type odds = .ok (g', h') →
        g'.bankroll - g.bankroll = h'.earnings - h.earnings) ∧
    (∀ (s s' : TurnState), settle_up s = .ok s' →
        s'.gambler.bankroll - s.gambler.bankroll =
          ((s'.gambler.hands.map GamblerHand.earnings).sum
            - (s.gambler.hands.map GamblerHand.earnings).sum)) := by
  constructor
  · intro g g' h h' t odds e
    exact (perform_hand_payout_payout_only e).1
  · intro s s' e
    unfold settle_up at e
    cases hd : s.dealer.hand with
    | none => rw [hd] at e; exact absurd e (by simp)
    | some dh =>
        rw [hd] at e
        dsimp only at e
        cases e2 : settle_up_hands s.gambler s.gambler.hands dh with
        | error m => rw [e2] at e; exact absurd e (by simp [Bind.bind, Except.bind])
        | ok p =>
            obtain ⟨g2, hands2⟩ := p
            rw [e2] at e
            simp only [Bind.bind, Except.bind, Except.ok.injEq] at e
            subst e
            have hd2 := settle_up_hands_delta s.gambler.hands s.gambler g2 hands2 e2
            simpa using hd2

/-- Witness for C10's theorem: a concrete wager reclaim moves bankroll and
earnings by the same amount. -/
theorem payout_credits_bankroll_and_earnings_equally_witness :
    reclaim_result.1.bankroll - bare_gambler.bankroll
      = reclaim_result.2.earnings - stood_hand.earnings :=
  payout_credits_bankroll_and_earnings_equally.1 bare_gambler reclaim_result.1 stood_hand
    reclaim_result.2 "wager_reclaim" none (by rfl)

/-- C9 (amended): the ordinary settlement flow never reassigns an already-set
outcome — `settle_hand` preserves it — but a status-override checkpoint firing
after the outcome was set does overwrite it (see the counterexample). -/
theorem settle_hand_preserves_set_outcome
    (g : Gambler) (h : GamblerHand) (dealer_hand : DealerHand)
    (hset : ¬ h.outcome = none) {g' : Gambler} {h' : GamblerHand}
    (e : settle_hand g h dealer_hand = .ok (g', h')) :
    h'.outcome = h.outcome := by
  have hf := (settle_hand_ok_facts e).2.2
  rw [if_neg hset] at hf
  exact hf

/-- Witness for C9's theorem: settling a pushed hand keeps its outcome. -/
theorem settle_hand_preserves_set_outcome_witness :
    pushed_settlement.2.outcome = pushed_hand.outcome :=
  @settle_hand_preserves_set_outcome bare_gambler pushed_hand dealer_20 (by simp [pushed_hand])
    pushed_settlement.1 pushed_settlement.2 (by rfl)

/-- C9 counterexample: after the pre-turn flow of the very same turn has set
outcome Win on the dealt blackjack, the status-override checkpoint (BUST
token) reassigns the first hand's outcome to Loss. -/
theorem override_reassigns_outcome_cex :
    (blackjack_pre_turn_state.gambler.first_hand.map GamblerHand.outcome
        = some (some "Win")) ∧
    ((handle_immediate_status "BUST" blackjack_pre_turn_state).gambler.first_hand.map
        GamblerHand.outcome = some (some "Loss")) :=
  ⟨rfl, rfl⟩

/-- C5 (amended): a dealt total of 21 is resolved by the pre-turn flow with
outcome Win — or Even Money when the dealer shows an ace and the strategy
takes even money — and with status Played, the generic terminal marker, not
Blackjack; the dealer-also-blackjack push branch cannot fire because the
dealer hand holds only the upcard when it is checked. -/
theorem dealt_blackjack_pre_turn_outcome
    (o : Oracle) (s : TurnState) (h0 : GamblerHand) (rest : List GamblerHand)
    (hh : s.gambler.hands = h0 :: rest)
    (h21 : final_total h0.cards = 21)
    (hstat : h0.status = "Pending")
    (c : Card) (dh : DealerHand) (hdh : s.dealer.hand = some dh) (hcards : dh.cards = [c]) :
    (play_pre_turn o s).gambler.first_hand.map (fun h => (h.status, h.outcome)) =
      some ("Played",
        some (if c.rank = "A" ∧ o.wants_even_money then "Even Money" else "Win")) := by
  have hbj : dh.is_blackjack = false := by simp [DealerHand.is_blackjack, hcards]
  have hup : s.dealer.up_card = some c := by simp [Dealer.up_card, hdh, hcards]
  have hshow : s.dealer.is_showing_ace = (c.rank == "A") := by
    simp [Dealer.is_showing_ace, hup]
  have hface : s.dealer.is_showing_face_card = (c.value == 10) := by
    simp [Dealer.is_showing_face_card, hup]
  have hfh : s.gambler.first_hand = some h0 := by simp [Gambler.first_hand, hh]
  by_cases hA : c.rank = "A"
  · by_cases hEM : o.wants_even_money
    · simp [play_pre_turn, hh, h21, hdh, hbj, hshow, hA, hEM, first_hand_update, hfh,
        set_hand_outcome, hstat]
    · simp [play_pre_turn, hh, h21, hdh, hbj, hshow, hA, hEM, first_hand_update, hfh,
        set_hand_outcome, hstat]
  · by_cases hF : c.value = 10
    · simp [play_pre_turn, hh, h21, hdh, hbj, hshow, hface, hA, hF, first_hand_update, hfh,
        set_hand_outcome, hstat]
    · simp [play_pre_turn, hh, h21, hdh, hbj, hshow, hface, hA, hF, first_hand_update, hfh,
        set_hand_outcome, hstat]

/-- Witness for C5's theorem: a dealt 21 against a shown ace with an
even-money strategy ends Played with outcome Even Money. -/
theorem dealt_blackjack_pre_turn_outcome_witness :
    (play_pre_turn even_money_oracle ace_blackjack_state).gambler.first_hand.map
        (fun h => (h.status, h.outcome)) = some ("Played", some "Even Money") :=
  dealt_blackjack_pre_turn_outcome even_money_oracle ace_blackjack_state
    { cards := create_dummy_hand 21, wager := 10 } [] rfl rfl rfl
    ⟨"Spades", "A", 11⟩ { cards := [⟨"Spades", "A", 11⟩] } rfl rfl

/-- C5 counterexample: the dealt blackjack resolved by pre-turn has status
Played and outcome Win — the status is not Blackjack as the claim states. -/
theorem dealt_blackjack_status_played_cex :
    (blackjack_pre_turn_state.gambler.first_hand.map (fun h => (h.status, h.outcome))
        = some ("Played", some "Win")) ∧
    ¬ (blackjack_pre_turn_state.gambler.first_hand.map GamblerHand.status
        = some "Blackjack") := by
  constructor
  · rfl
  · decide

set_option maxRecDepth 2000 in
set_option maxHeartbeats 2000000 in
/-- C1 (amended): a status-override token is always resolved through
`handle_immediate_status`, which applies the fixed status+outcome pair to the
gambler's first hand and synthesizes placeholder gambler and dealer hands
when absent.  At each of the four turn-level checkpoints (turn start, after
the deal, after pre-turn, after the gambler's turn) a token sends the turn
straight to `finalize_turn`, skipping settlement, so no payout is made there
and a committed wager is forfeited even for WIN.  At the fifth, per-action
checkpoint inside the gambler-hand loop a token only abandons the hand loop;
the turn then continues at the post-gambler-turn checkpoint, and when that
poll returns no token the dealer turn and settlement DO run and pay the
overridden outcome (a mid-hand WIN on a fresh 100/100 turn ends at bankroll
200 with earnings 200). -/
theorem override_checkpoint_resolution :
    (∀ (o : Oracle) (fuel : Nat) (s : TurnState) (tok : String),
        o.status_response s.poll_idx = some tok → tok ∈ status_tokens →
        play_turn o fuel s =
          .ok (finalize_turn (handle_immediate_status tok
            { s with turn := s.turn + 1, poll_idx := s.poll_idx + 1 }))) ∧
    (∀ (o : Oracle) (fuel : Nat) (s s2 s3 : TurnState) (tok : String),
        o.status_response s.poll_idx = none →
        check_gambler_wager o fuel { s with turn := s.turn + 1, poll_idx := s.poll_idx + 1 }
            = .ok s2 →
        ¬ s2.gambler.auto_wager = 0 →
        deal o fuel s2 = .ok s3 →
        o.status_response s3.poll_idx = some tok → tok ∈ status_tokens →
        play_turn o fuel s =
          .ok (finalize_turn (handle_immediate_status tok
            { s3 with poll_idx := s3.poll_idx + 1 }))) ∧
    (∀ (o : Oracle) (fuel : Nat) (s s2 s3 : TurnState) (tok : String),
        o.status_response s.poll_idx = none →
        check_gambler_wager o fuel { s with turn := s.turn + 1, poll_idx := s.poll_idx + 1 }
            = .ok s2 →
        ¬ s2.gambler.auto_wager = 0 →
        deal o fuel s2 = .ok s3 →
        o.status_response s3.poll_idx = none →
        o.status_response (play_pre_turn o { s3 with poll_idx := s3.poll_idx + 1 }).poll_idx
            = some tok →
        tok ∈ status_tokens →
        play_turn o fuel s =
          .ok (finalize_turn (handle_immediate_status tok
            { play_pre_turn o { s3 with poll_idx := s3.poll_idx + 1 } with
              poll_idx :=
                (play_pre_turn o { s3 with poll_idx := s3.poll_idx + 1 }).poll_idx + 1 }))) ∧
    (∀ (o : Oracle) (fuel : Nat) (s s2 s3 s7 : TurnState) (tok : String),
        o.status_response s.poll_idx = none →
        check_gambler_wager o fuel { s with turn := s.turn + 1, poll_idx := s.poll_idx + 1 }
            = .ok s2 →
        ¬ s2.gambler.auto_wager = 0 →
        deal o fuel s2 = .ok s3 →
        o.status_response s3.poll_idx = none →
        o.status_response (play_pre_turn o { s3 with poll_idx := s3.poll_idx + 1 }).poll_idx
            = none →
        play_gambler_turn o fuel
            { play_pre_turn o { s3 with poll_idx := s3.poll_idx + 1 } with
              poll_idx :=
                (play_pre_turn o { s3 with poll_idx := s3.poll_idx + 1 }).poll_idx + 1 }
            = .ok s7 →
        o.status_response s7.poll_idx = some tok → tok ∈ status_tokens →
        play_turn o fuel s =
          .ok (finalize_turn (handle_immediate_status tok
            { s7 with poll_idx := s7.poll_idx + 1 }))) ∧
    (∀ (o : Oracle) (f : Nat) (sL : TurnState) (h : GamblerHand) (tok : String),
        sL.gambler.first_hand = some h →
        h.status = "Playing" →
        (h.cards.length == 1 && final_total h.cards == 21) = false →
        o.status_response sL.poll_idx = some tok → tok ∈ status_tokens →
        play_gambler_hand_loop o (f + 1) sL =
          .ok (handle_immediate_status tok { sL with poll_idx := sL.poll_idx + 1 })) ∧
    (∀ (tok : String) (s' : TurnState), tok ∈ status_tokens →
        (handle_immediate_status tok s').gambler.first_hand.map
            (fun h => (h.status, h.outcome)) = some (spec_override_mapping tok) ∧
        (handle_immediate_status tok s').gambler.bankroll
            = s'.gambler.bankroll -
                (if s'.gambler.hands = [] then s'.gambler.auto_wager else 0) ∧
        (handle_immediate_status tok s').dealer.hand.isSome = true ∧
        (finalize_turn (handle_immediate_status tok s')).gambler.bankroll
            = (handle_immediate_status tok s').gambler.bankroll) ∧
    ((play_turn midhand_win_oracle 30 (fresh_state 100 100)).map
        (fun st => st.gambler.bankroll) = .ok 200 ∧
     (play_turn midhand_win_oracle 30 (fresh_state 100 100)).map
        (fun st => st.metrics.gambler_hands.map
          (fun h => (h.status, h.outcome, h.wager, h.earnings)))
        = .ok [("Stood", some "Win", 100, 200)]) := by
  refine ⟨?_, ?_, ?_, ?_, ?_, ?_, ?_, ?_⟩
  · intro o fuel s tok hresp htok
    simp [play_turn, check_for_status_text, hresp, htok]
  · intro o fuel s s2 s3 tok h0 hw hnz hd hresp htok
    simp only [play_turn, check_for_status_text, h0]
    simp only [hw, Bind.bind, Except.bind]
    rw [if_neg hnz]
    simp only [hd, Bind.bind, Except.bind]
    simp [check_for_status_text, hresp, htok]
  · intro o fuel s s2 s3 tok h0 hw hnz hd h4 hresp htok
    simp only [play_turn, check_for_status_text, h0]
    simp only [hw, Bind.bind, Except.bind]
    rw [if_neg hnz]
    simp only [hd, Bind.bind, Except.bind, h4]
    simp [check_for_status_text, hresp, htok]
  · intro o fuel s s2 s3 s7 tok h0 hw hnz hd h4 h5 hg hresp htok
    simp only [play_turn, check_for_status_text, h0]
    simp only [hw, Bind.bind, Except.bind]
    rw [if_neg hnz]
    simp only [hd, Bind.bind, Except.bind, h4]
    simp only [check_for_status_text, h5]
    simp only [hg, Bind.bind, Except.bind]
    simp [check_for_status_text, hresp, htok]
  · intro o f sL h tok hfh hst hbj hresp htok
    simp only [play_gambler_hand_loop, hfh]
    simp [hst, hbj, check_for_status_text, hresp, htok]
  · intro tok s' htok
    have htok5 : tok = "BLACKJACK" ∨ tok = "PUSH" ∨ tok = "WIN" ∨ tok = "BUST" ∨
        tok = "SURRENDER" := by
      simpa [status_tokens] using htok
    refine ⟨?_, ?_, ?_, ?_⟩
    · rcases htok5 with rfl | rfl | rfl | rfl | rfl <;>
        cases hd : s'.dealer.hand <;>
          cases hhs : s'.gambler.hands <;>
            simp [handle_immediate_status, hhs, hd, Gambler.place_auto_wager,
              Gambler.update_first_hand, Gambler.first_hand, set_hand_status, set_hand_outcome,
              spec_override_mapping]
    · cases hd : s'.dealer.hand <;>
        cases hhs : s'.gambler.hands <;>
          simp [handle_immediate_status, hhs, hd, Gambler.place_auto_wager,
            Gambler.update_first_hand]
    · cases hd : s'.dealer.hand <;>
        cases hhs : s'.gambler.hands <;>
          simp [handle_immediate_status, hhs, hd, Gambler.place_auto_wager,
            Gambler.update_first_hand]
    · rfl
  · simp [play_turn, check_for_status_text, midhand_win_oracle, fresh_state, status_tokens,
      check_gambler_wager,
      Gambler.can_place_auto_wager, deal, get_card_input, get_total_input, RANKS,
      create_dummy_hand, Gambler.place_auto_wager, Gambler.update_first_hand, play_pre_turn,
      Dealer.is_showing_ace, Dealer.is_showing_face_card, Dealer.up_card, DealerHand.is_blackjack,
      final_total, reduce_for_aces, play_gambler_turn, play_gambler_hand, play_gambler_hand_loop,
      handle_immediate_status, apply_gambler_action, handle_surrender, Gambler.first_hand,
      check_hand_after_action, play_dealer_turn, get_dealer_total_input, settle_up,
      settle_up_hands, settle_hand, pay_out_hand, perform_hand_payout, payout_amount,
      Gambler.payout, set_hand_status, set_hand_outcome, determine_hand_outcome, finalize_turn,
      track_metrics, Gambler.discard_hands, Dealer.discard_hand, Except.map, Bind.bind,
      Except.bind]
    norm_num
  · simp [play_turn, check_for_status_text, midhand_win_oracle, fresh_state, status_tokens,
      check_gambler_wager,
      Gambler.can_place_auto_wager, deal, get_card_input, get_total_input, RANKS,
      create_dummy_hand, Gambler.place_auto_wager, Gambler.update_first_hand, play_pre_turn,
      Dealer.is_showing_ace, Dealer.is_showing_face_card, Dealer.up_card, DealerHand.is_blackjack,
      final_total, reduce_for_aces, play_gambler_turn, play_gambler_hand, play_gambler_hand_loop,
      handle_immediate_status, apply_gambler_action, handle_surrender, Gambler.first_hand,
      check_hand_after_action, play_dealer_turn, get_dealer_total_input, settle_up,
      settle_up_hands, settle_hand, pay_out_hand, perform_hand_payout, payout_amount,
      Gambler.payout, set_hand_status, set_hand_outcome, determine_hand_outcome, finalize_turn,
      track_metrics, Gambler.discard_hands, Dealer.discard_hand, Except.map, Bind.bind,
      Except.bind]
    norm_num

/-- Witness for C1's theorem: the WIN token at the first checkpoint of a
fresh 100/10 turn, the WIN token at the per-action checkpoint of a mid-turn
hand, and the BUST resolution facts, each at concrete inputs. -/
theorem override_checkpoint_resolution_witness :
    play_turn c1_oracle 5 (fresh_state 100 10) =
      .ok (finalize_turn (handle_immediate_status "WIN" c1_polled_state)) ∧
    play_gambler_hand_loop c1_oracle (4 + 1) playing_hand_state =
      .ok (handle_immediate_status "WIN"
        { playing_hand_state with poll_idx := playing_hand_state.poll_idx + 1 }) ∧
    ((handle_immediate_status "BUST" (fresh_state 100 10)).gambler.first_hand.map
        (fun h => (h.status, h.outcome)) = some (spec_override_mapping "BUST") ∧
     (handle_immediate_status "BUST" (fresh_state 100 10)).gambler.bankroll
        = (fresh_state 100 10).gambler.bankroll -
            (if (fresh_state 100 10).gambler.hands = []
             then (fresh_state 100 10).gambler.auto_wager else 0) ∧
     (handle_immediate_status "BUST" (fresh_state 100 10)).dealer.hand.isSome = true ∧
     (finalize_turn (handle_immediate_status "BUST" (fresh_state 100 10))).gambler.bankroll
        = (handle_immediate_status "BUST" (fresh_state 100 10)).gambler.bankroll) :=
  ⟨override_checkpoint_resolution.1 c1_oracle 5 (fresh_state 100 10) "WIN" rfl (by decide),
   override_checkpoint_resolution.2.2.2.2.1 c1_oracle 4 playing_hand_state playing_hand "WIN"
     rfl rfl (by decide) rfl (by decide),
   override_checkpoint_resolution.2.2.2.2.2.1 "BUST" (fresh_state 100 10) (by decide)⟩

/-- C1 counterexample: a WIN override on a fresh turn commits the auto-wager
of 10 and then finalizes without settlement — the bankroll ends at 90, not
the 110 a settled Win would pay, and the recorded hand has zero earnings. -/
theorem win_override_pays_nothing_cex :
    (play_turn c1_oracle 30 (fresh_state 100 10)).map (fun s => s.gambler.bankroll)
        = .ok 90 ∧
    (play_turn c1_oracle 30 (fresh_state 100 10)).map
        (fun s => s.metrics.gambler_hands.map (fun h => (h.status, h.outcome, h.earnings)))
        = .ok [("Stood", some "Win", 0)] ∧
    ((90 : ℚ) < 100) := by
  refine ⟨?_, ?_, by norm_num⟩
  · simp [play_turn, check_for_status_text, c1_oracle, fresh_state, status_tokens,
      handle_immediate_status, Gambler.place_auto_wager, Gambler.update_first_hand,
      set_hand_status, set_hand_outcome, finalize_turn, track_metrics,
      Gambler.discard_hands, Dealer.discard_hand, Except.map]
    norm_num
  · simp [play_turn, check_for_status_text, c1_oracle, fresh_state, status_tokens,
      handle_immediate_status, Gambler.place_auto_wager, Gambler.update_first_hand,
      set_hand_status, set_hand_outcome, finalize_turn, track_metrics,
      Gambler.discard_hands, Dealer.discard_hand, Except.map]

/-- C4 (code bug exhibit): on the surrender turn with bankroll 100 and wager
100, the controller deducts exactly half the wager at surrender, the hand
ends Surrendered/Surrender, and settlement pays nothing further — but the
already committed wager is never reclaimed, so the turn ends at bankroll -50:
a net loss of 150 = 3/2 of the wager, not the half-wager the claim (and the
source's own "Half of the bet is lost" message) promises. -/
theorem surrender_net_loss_is_threehalves_wager :
    (play_turn surrender_oracle 30 (fresh_state 100 100)).map (fun s => s.gambler.bankroll)
        = .ok (-50) ∧
    (play_turn surrender_oracle 30 (fresh_state 100 100)).map
        (fun s => s.metrics.gambler_hands.map (fun h => (h.status, h.outcome, h.wager, h.earnings)))
        = .ok [("Surrendered", some "Surrender", 100, 0)] ∧
    ¬ ((100 : ℚ) - (-50) = 100 / 2) ∧
    ((100 : ℚ) - (-50) = 3 / 2 * 100) := by
  refine ⟨?_, ?_, by norm_num, by norm_num⟩
  · simp [play_turn, check_for_status_text, surrender_oracle, fresh_state, check_gambler_wager,
      Gambler.can_place_auto_wager, deal, get_card_input, get_total_input, RANKS,
      create_dummy_hand, Gambler.place_auto_wager, Gambler.update_first_hand, play_pre_turn,
      Dealer.is_showing_ace, Dealer.is_showing_face_card, Dealer.up_card, DealerHand.is_blackjack,
      final_total, reduce_for_aces, play_gambler_turn, play_gambler_hand, play_gambler_hand_loop,
      apply_gambler_action, handle_surrender, Gambler.first_hand, check_hand_after_action,
      play_dealer_turn, settle_up, settle_up_hands, settle_hand, set_hand_status,
      set_hand_outcome, determine_hand_outcome, finalize_turn, track_metrics,
      Gambler.discard_hands, Dealer.discard_hand, Except.map, Bind.bind, Except.bind]
    norm_num
  · simp [play_turn, check_for_status_text, surrender_oracle, fresh_state, check_gambler_wager,
      Gambler.can_place_auto_wager, deal, get_card_input, get_total_input, RANKS,
      create_dummy_hand, Gambler.place_auto_wager, Gambler.update_first_hand, play_pre_turn,
      Dealer.is_showing_ace, Dealer.is_showing_face_card, Dealer.up_card, DealerHand.is_blackjack,
      final_total, reduce_for_aces, play_gambler_turn, play_gambler_hand, play_gambler_hand_loop,
      apply_gambler_action, handle_surrender, Gambler.first_hand, check_hand_after_action,
      play_dealer_turn, settle_up, settle_up_hands, settle_hand, set_hand_status,
      set_hand_outcome, determine_hand_outcome, finalize_turn, track_metrics,
      Gambler.discard_hands, Dealer.discard_hand, Except.map, Bind.bind, Except.bind]

/-- C8 counterexample: Surrender is never among the offered options, yet the
controller processes it as a normal action (deducting half the wager) instead
of aborting with a diagnostic. -/
theorem surrender_action_outside_options_processed_cex :
    ("Surrender" ∉ (get_hand_options playing_hand_state.gambler playing_hand).map Prod.snd) ∧
    (apply_gambler_action ({} : Oracle) 5 playing_hand_state "Surrender").map
        (fun st => st.gambler.bankroll) = .ok 85 := by
  constructor
  · decide
  · simp [apply_gambler_action, handle_surrender, playing_hand_state, playing_hand,
      Gambler.first_hand, Gambler.update_first_hand, set_hand_status, set_hand_outcome,
      Except.map]
    norm_num

end Blackjack
